import Mathlib

/-!
Verification of the RuRay transparent TUN proxy engine
(`src-tauri/src/tun.rs` and `ruray/src-tauri/src/proxy.rs`).

The Rust code is shallowly embedded: every definition below mirrors the
control flow of the named Rust function.  Machine integers are modelled as
`Nat` (u8 bytes are `Nat < 256`, u16 values `Nat < 65536`, u32 addresses
`Nat < 2^32`, with explicit `% 2^w` wherever the Rust arithmetic can wrap
in a release build).  IPv4 addresses appear either as four octets
(`Ipv4`, mirroring `std::net::Ipv4Addr`) or as their `u32` numeric value
(mirroring `u32::from(ip)`), with explicit conversions between the two.
Network and OS effects (TCP streams, `route.exe` invocations, process
spawning) are modelled by explicit oracles passed as arguments, so that
each Rust function's branching on I/O results is reproduced exactly.
-/

/-- An IPv4 address as four octets, mirroring `std::net::Ipv4Addr`. -/
structure Ipv4 where
  o0 : Nat
  o1 : Nat
  o2 : Nat
  o3 : Nat
deriving DecidableEq, Repr

/-- Octets are in range, which `u8` guarantees in Rust. -/
def Ipv4.Valid (ip : Ipv4) : Prop :=
  ip.o0 < 256 ∧ ip.o1 < 256 ∧ ip.o2 < 256 ∧ ip.o3 < 256

/-- The four octets as a byte list, mirroring `Ipv4Addr::octets`. -/
def Ipv4.octets (ip : Ipv4) : List Nat :=
  [ip.o0, ip.o1, ip.o2, ip.o3]

/-- Mirrors `u32::from(ip)` (big-endian composition of the octets). -/
def Ipv4.toU32 (ip : Ipv4) : Nat :=
  ((ip.o0 * 256 + ip.o1) * 256 + ip.o2) * 256 + ip.o3

/-- Mirrors `Ipv4Addr::from(n : u32)`. -/
def ipv4OfU32 (n : Nat) : Ipv4 :=
  ⟨n / 16777216 % 256, n / 65536 % 256, n / 256 % 256, n % 256⟩

/-- Mirrors `Ipv4Addr::is_loopback` (127.0.0.0/8). -/
def Ipv4.isLoopback (ip : Ipv4) : Bool :=
  ip.o0 == 127

/-- Mirrors `Ipv4Addr::is_private` (10/8, 172.16/12, 192.168/16). -/
def Ipv4.isPrivate (ip : Ipv4) : Bool :=
  ip.o0 == 10 ∨ (ip.o0 == 172 ∧ 16 ≤ ip.o1 ∧ ip.o1 ≤ 31) ∨ (ip.o0 == 192 ∧ ip.o1 == 168)

/-- Mirrors `Ipv4Addr::is_link_local` (169.254.0.0/16). -/
def Ipv4.isLinkLocal (ip : Ipv4) : Bool :=
  ip.o0 == 169 ∧ ip.o1 == 254

/-- Mirrors `Ipv4Addr::is_multicast` (224.0.0.0/4). -/
def Ipv4.isMulticast (ip : Ipv4) : Bool :=
  224 ≤ ip.o0 ∧ ip.o0 ≤ 239

/-- Mirrors `Ipv4Addr::is_broadcast` (255.255.255.255). -/
def Ipv4.isBroadcast (ip : Ipv4) : Bool :=
  ip.o0 == 255 ∧ ip.o1 == 255 ∧ ip.o2 == 255 ∧ ip.o3 == 255

/-- Mirrors `TunManager::is_reserved_ip` (tun.rs:1111). -/
def is_reserved_ip (ip : Ipv4) : Bool :=
  if ip.o0 == 0 then true
  else if ip.o0 == 127 then true
  else if ip.o0 == 169 ∧ ip.o1 == 254 then true
  else if 224 ≤ ip.o0 ∧ ip.o0 ≤ 239 then true
  else if 240 ≤ ip.o0 then true
  else false

/-- Mirrors `TunManager::is_china_ip` (tun.rs:1131). -/
def is_china_ip (ip : Ipv4) : Bool :=
  if ip.o0 == 58 ∨ ip.o0 == 59 ∨ ip.o0 == 60 ∨ ip.o0 == 61 ∨ ip.o0 == 112 ∨
     ip.o0 == 113 ∨ ip.o0 == 114 ∨ ip.o0 == 115 ∨ ip.o0 == 116 ∨ ip.o0 == 117 ∨
     ip.o0 == 118 ∨ ip.o0 == 119 then true
  else if ip.o0 == 123 ∨ ip.o0 == 124 ∨ ip.o0 == 125 ∨ ip.o0 == 126 then true
  else if ip.o0 == 111 then true
  else if ip.o0 == 202 ∧ 112 ≤ ip.o1 ∧ ip.o1 ≤ 120 then true
  else if ip.o0 == 121 ∨ ip.o0 == 122 then true
  else false

/-- Mirrors `TunManager::is_system_port` (tun.rs:1151). -/
def is_system_port (port : Nat) : Bool :=
  if port == 53 then true
  else if port == 67 ∨ port == 68 then true
  else if port == 123 then true
  else if port == 161 ∨ port == 162 then true
  else if port == 137 ∨ port == 138 ∨ port == 139 then true
  else if port == 389 ∨ port == 636 then true
  else if port == 88 ∨ port == 464 then true
  else if port == 135 ∨ port == 445 then true
  else if port == 5353 then true
  else if port == 5355 then true
  else if port == 3702 then true
  else false

/-- Mirrors `TunManager::should_proxy` (tun.rs:1051).  The call to
`is_proxy_running` is an OS probe; its result is passed in as the
`proxyRunning` oracle. -/
def should_proxy (proxyRunning : Bool) (dst_ip : Ipv4) (dst_port : Nat) : Bool :=
  if dst_ip.isLoopback then false
  else if dst_ip.isPrivate then false
  else if dst_ip.isLinkLocal then false
  else if dst_ip.isMulticast then false
  else if dst_ip.isBroadcast then false
  else if is_reserved_ip dst_ip then false
  else if is_china_ip dst_ip then false
  else if is_system_port dst_port then false
  else if !proxyRunning then false
  else true

/-- Loop body of `TunManager::parse_dns_query` (tun.rs:1305-1322): walk the
length-prefixed labels starting at `pos`, accumulating the dot-joined name
in `domain` (bytes; a dot is byte 46).  `String::from_utf8_lossy` is
modelled as the identity on label bytes. -/
def parseDnsLoop (dnsData : List Nat) (pos : Nat) (domain : List Nat) : Option (List Nat) :=
  if hpos : pos < dnsData.length then
    if hlen : dnsData.getD pos 0 = 0 then some domain
    else if dnsData.length < pos + 1 + dnsData.getD pos 0 then none
    else parseDnsLoop dnsData (pos + 1 + dnsData.getD pos 0)
      (domain ++ (if domain = [] then [] else [46]) ++
        ((dnsData.drop (pos + 1)).take (dnsData.getD pos 0)))
  else some domain
termination_by dnsData.length - pos
decreasing_by
  simp_wf
  omega

/-- Mirrors `TunManager::parse_dns_query` (tun.rs:1297): `None` for inputs
shorter than 12 bytes, otherwise walk the question labels from offset 12;
an empty accumulated name yields `None`. -/
def parse_dns_query (dnsData : List Nat) : Option (List Nat) :=
  if dnsData.length < 12 then none
  else
    match parseDnsLoop dnsData 12 [] with
    | none => none
    | some domain => if domain = [] then none else some domain

/-- Modelled from the claim's wording: the list of question-section labels,
`none` when a label's declared length would run past the end of the buffer;
the walk stops at a zero length byte or at the end of the buffer. -/
def dnsSpecLabels (dnsData : List Nat) (pos : Nat) : Option (List (List Nat)) :=
  if hpos : pos < dnsData.length then
    if hlen : dnsData.getD pos 0 = 0 then some []
    else if dnsData.length < pos + 1 + dnsData.getD pos 0 then none
    else Option.map (fun ls => ((dnsData.drop (pos + 1)).take (dnsData.getD pos 0)) :: ls)
      (dnsSpecLabels dnsData (pos + 1 + dnsData.getD pos 0))
  else some []
termination_by dnsData.length - pos
decreasing_by
  simp_wf
  omega

/-- Modelled from the claim's wording: `none` when the input is shorter than
12 bytes, when the question name is empty (first label length byte zero, or
nothing after the header), or when a label overruns the buffer; otherwise
the label list. -/
def dnsSpecQuestion (dnsData : List Nat) : Option (List (List Nat)) :=
  if dnsData.length < 12 then none
  else
    match dnsSpecLabels dnsData 12 with
    | none => none
    | some [] => none
    | some ls => some ls

/-- Dot-joining of labels onto an accumulator, matching the push pattern of
the Rust loop. -/
def joinLabels (acc : List Nat) (ls : List (List Nat)) : List Nat :=
  List.foldl (fun a l => a ++ (if a = [] then [] else [46]) ++ l) acc ls

/-- First-match association lookup, the `HashMap::get` of the embedding
(insertion is modelled by cons, so the head is the newest binding). -/
def lookupFst (m : List (List Nat × Nat)) (d : List Nat) : Option Nat :=
  match m with
  | [] => none
  | (k, v) :: t => if k = d then some v else lookupFst t d

/-- State of `FakeIpManager` (tun.rs:134): the two directional maps, the
`next_ip` cursor (a `u32`), and the pool bounds as `u32` values.  Domains
are byte strings (`String::from_utf8_lossy` is the identity on the bytes
our theorems use). -/
structure FakeIpSt where
  domainToFake : List (List Nat × Nat)
  fakeToDomain : List (Nat × List Nat)
  nextIp : Nat
  startIp : Nat
  endIp : Nat
deriving DecidableEq, Repr

/-- Mirrors `FakeIpManager::new` (tun.rs:150): cursor starts at
`u32::from(start_ip)`. -/
def mkFakeIpSt (startIp endV : Nat) : FakeIpSt :=
  ⟨[], [], startIp, startIp, endV⟩

/-- Mirrors `FakeIpManager::allocate_fake_ip` (tun.rs:163): return the
existing mapping if present; error once the cursor exceeds `end_ip`
(the pool-full case); otherwise hand out the cursor value, bump the
cursor (`u32` wrapping add), and record both directions. -/
def allocate_fake_ip (s : FakeIpSt) (domain : List Nat) : Except Unit Nat × FakeIpSt :=
  match lookupFst s.domainToFake domain with
  | some fakeIp => (.ok fakeIp, s)
  | none =>
    if s.endIp < s.nextIp then (.error (), s)
    else
      (.ok s.nextIp,
        { s with
          nextIp := (s.nextIp + 1) % 4294967296,
          domainToFake := (domain, s.nextIp) :: s.domainToFake,
          fakeToDomain := (s.nextIp, domain) :: s.fakeToDomain })

/-- Mirrors the inline FakeIP allocation of `handle_dns_hijack`
(tun.rs:1405-1425): return the existing mapping if present; otherwise hand
out the cursor value and advance the cursor, wrapping from `end_ip` back to
`start_ip`.  This path never reports exhaustion. -/
def hijack_allocate (s : FakeIpSt) (domain : List Nat) : Nat × FakeIpSt :=
  match lookupFst s.domainToFake domain with
  | some fakeIp => (fakeIp, s)
  | none =>
    let newFakeIp := s.nextIp
    let next := if newFakeIp = s.endIp then s.startIp else (s.nextIp + 1) % 4294967296
    (newFakeIp,
      { s with
        nextIp := next,
        domainToFake := (domain, newFakeIp) :: s.domainToFake,
        fakeToDomain := (newFakeIp, domain) :: s.fakeToDomain })

/-- Running a sequence of allocations through `allocate_fake_ip`,
discarding the results (reachable states of the allocator). -/
def runAllocs (s : FakeIpSt) (ds : List (List Nat)) : FakeIpSt :=
  ds.foldl (fun st d => (allocate_fake_ip st d).2) s

/-- Invariant of the allocator state: every mapped address is below the
cursor, lookups at distinct domains yield distinct addresses, and the
cursor stays within the (non-wrapping) pool bounds. -/
def FakeInv (s : FakeIpSt) : Prop :=
  (∀ p ∈ s.domainToFake, p.2 < s.nextIp) ∧
  (∀ d1 d2 a1 a2, lookupFst s.domainToFake d1 = some a1 →
    lookupFst s.domainToFake d2 = some a2 → d1 ≠ d2 → a1 ≠ a2) ∧
  s.nextIp ≤ s.endIp + 1 ∧ s.endIp + 1 < 4294967296

/-- Mirrors `TunManager::create_dns_response` (tun.rs:1332): copy the query,
rewrite the flag bytes to 0x81 0x80 (QR=1, RD=1, RA=1), set ANCOUNT to 1,
and append one A record: compressed name pointer 0xc0 0x0c, type A, class
IN, TTL 300, data length 4, then the four address octets.  Queries shorter
than 12 bytes are returned unchanged. -/
def create_dns_response (queryData : List Nat) (fakeIp : Ipv4) : List Nat :=
  if queryData.length < 12 then queryData
  else
    ((((queryData.set 2 129).set 3 128).set 6 0).set 7 1) ++
      [192, 12, 0, 1, 0, 1, 0, 0, 1, 44, 0, 4] ++ fakeIp.octets

/-- Word pairing of `TunManager::calculate_checksum` (tun.rs:1736): 16-bit
big-endian words, an odd trailing byte padded with a zero low byte. -/
def checksumWords : List Nat → List Nat
  | [] => []
  | [b] => [b * 256]
  | b1 :: b2 :: rest => (b1 * 256 + b2) :: checksumWords rest

/-- The `u32` accumulation of the checksum loop (`sum += word`, wrapping in
a release build). -/
def wrapSumAux (acc : Nat) (ws : List Nat) : Nat :=
  ws.foldl (fun a w => (a + w) % 4294967296) acc

/-- The carry-folding loop of `calculate_checksum` (tun.rs:1745):
`while sum >> 16 != 0 { sum = (sum & 0xFFFF) + (sum >> 16) }`. -/
def foldCarry (s : Nat) : Nat :=
  if h : 65536 ≤ s then foldCarry (s % 65536 + s / 65536) else s
termination_by s
decreasing_by
  omega

/-- Mirrors `TunManager::calculate_checksum` (tun.rs:1732): ones'-complement
sum of the 16-bit words, folded, truncated to `u16` and inverted. -/
def calculate_checksum (data : List Nat) : Nat :=
  65535 - foldCarry (wrapSumAux 0 (checksumWords data)) % 65536

/-- Mirrors `TunManager::write_response_packet` (tun.rs:1482) up to the
device write: build the IPv4 header (version 4, IHL 5, TTL 64, checksum
over the 20 header bytes computed with the checksum field zeroed), with the
source/destination addresses and ports of the packet swapped relative to
the `src`/`dst` arguments (this is a response), then the TCP (20 bytes,
data offset 5, flags 0x18, window 0xFFFF) or UDP (8 bytes with length
field) header, then the payload.  `u16` big-endian serialization of a
value `v` is `[v % 65536 / 256, v % 256]`. -/
def write_response_packet (srcIp : Ipv4) (srcPort : Nat) (dstIp : Ipv4) (dstPort : Nat)
    (data : List Nat) (protocol : Nat) : List Nat :=
  let total_len := if protocol = 6 then 20 + 20 + data.length else 20 + 8 + data.length
  let ck := calculate_checksum
    (69 :: 0 :: (total_len % 65536 / 256) :: (total_len % 256) :: 0 :: 0 :: 64 :: 0 ::
      64 :: protocol :: 0 :: 0 :: (dstIp.octets ++ srcIp.octets))
  let hdr : List Nat :=
    69 :: 0 :: (total_len % 65536 / 256) :: (total_len % 256) :: 0 :: 0 :: 64 :: 0 ::
      64 :: protocol :: (ck / 256 % 256) :: (ck % 256) :: (dstIp.octets ++ srcIp.octets)
  if protocol = 6 then
    hdr ++ (dstPort % 65536 / 256) :: (dstPort % 256) ::
      (srcPort % 65536 / 256) :: (srcPort % 256) ::
      0 :: 0 :: 0 :: 1 :: 0 :: 0 :: 0 :: 0 :: 80 :: 24 :: 255 :: 255 :: 0 :: 0 :: 0 :: 0 :: data
  else
    hdr ++ (dstPort % 65536 / 256) :: (dstPort % 256) ::
      (srcPort % 65536 / 256) :: (srcPort % 256) ::
      ((8 + data.length) % 65536 / 256) :: ((8 + data.length) % 256) :: 0 :: 0 :: data

/-- A decoded TCP/UDP packet, as extracted by the packet-processing loop. -/
structure DecodedPacket where
  protocol : Nat
  src : Ipv4
  srcPort : Nat
  dst : Ipv4
  dstPort : Nat
  payload : List Nat
deriving DecidableEq, Repr

/-- The field extraction of `TunManager::process_packet_with_response`
(tun.rs:691-763), the `PacketCodec.decode` of the spec: validate length and
version nibble, read protocol and addresses at the documented offsets,
honor IHL, read ports from the transport header, and take the payload after
the TCP data offset (TCP) or the 8-byte UDP header.  Dropped packets
(too short, non-IPv4, or protocols other than 6/17) decode to `none`. -/
def decodePacket (packet : List Nat) : Option DecodedPacket :=
  if packet.length < 20 then none
  else if packet.getD 0 0 / 16 % 16 ≠ 4 then none
  else
    if packet.length < packet.getD 0 0 % 16 * 4 then none
    else if packet.getD 9 0 = 6 then
      if packet.getD 0 0 % 16 * 4 + 20 ≤ packet.length then
        if packet.getD 0 0 % 16 * 4 +
            packet.getD (packet.getD 0 0 % 16 * 4 + 12) 0 / 16 * 4 ≤ packet.length then
          some ⟨6,
            ⟨packet.getD 12 0, packet.getD 13 0, packet.getD 14 0, packet.getD 15 0⟩,
            packet.getD (packet.getD 0 0 % 16 * 4) 0 * 256 +
              packet.getD (packet.getD 0 0 % 16 * 4 + 1) 0,
            ⟨packet.getD 16 0, packet.getD 17 0, packet.getD 18 0, packet.getD 19 0⟩,
            packet.getD (packet.getD 0 0 % 16 * 4 + 2) 0 * 256 +
              packet.getD (packet.getD 0 0 % 16 * 4 + 3) 0,
            packet.drop (packet.getD 0 0 % 16 * 4 +
              packet.getD (packet.getD 0 0 % 16 * 4 + 12) 0 / 16 * 4)⟩
        else none
      else none
    else if packet.getD 9 0 = 17 then
      if packet.getD 0 0 % 16 * 4 + 8 ≤ packet.length then
        some ⟨17,
          ⟨packet.getD 12 0, packet.getD 13 0, packet.getD 14 0, packet.getD 15 0⟩,
          packet.getD (packet.getD 0 0 % 16 * 4) 0 * 256 +
            packet.getD (packet.getD 0 0 % 16 * 4 + 1) 0,
          ⟨packet.getD 16 0, packet.getD 17 0, packet.getD 18 0, packet.getD 19 0⟩,
          packet.getD (packet.getD 0 0 % 16 * 4 + 2) 0 * 256 +
            packet.getD (packet.getD 0 0 % 16 * 4 + 3) 0,
          packet.drop (packet.getD 0 0 % 16 * 4 + 8)⟩
      else none
    else none

/-- The packet write performed by the forwarding branch of
`handle_dns_hijack` (tun.rs:1466-1474): the DNS server's response bytes are
handed to `write_response_packet` with arguments
`(dns_ip, 53, src_ip, src_port)` — already in response direction — and
`write_response_packet` swaps them again. -/
def dns_hijack_response_write (dnsIp srcIp : Ipv4) (srcPort : Nat)
    (responseBuf : List Nat) : List Nat :=
  write_response_packet dnsIp 53 srcIp srcPort responseBuf 17

/-- Oracle for one SOCKS5 proxy attempt: whether the TCP connection to the
proxy endpoint opens, whether each write succeeds, and the reply bytes
(`none` models a read error).  `hsReply` is the 2-byte handshake reply;
`connReply` is bytes 0 and 1 of the 10-byte CONNECT reply. -/
structure Socks5Net where
  connectOk : Bool
  hsWriteOk : Bool
  hsReply : Option (Nat × Nat)
  reqWriteOk : Bool
  connReply : Option (Nat × Nat)
  dataWriteOk : Bool
deriving DecidableEq, Repr

/-- Oracle for a direct connection attempt. -/
structure DirectNet where
  connectOk : Bool
  writeOk : Bool
deriving DecidableEq, Repr

/-- Observable outcome of one TCP forwarding attempt. -/
inductive FwdOutcome
  | proxied
  | fellBackOk
  | fellBackErr
  | errored
deriving DecidableEq, Repr

/-- Mirrors the TCP branch of `TunManager::forward_direct` (tun.rs:2018):
connect to the destination; write the payload if non-empty. -/
def forward_direct_tcp (dnet : DirectNet) (hasData : Bool) : Except Unit Unit :=
  if dnet.connectOk then
    if hasData then (if dnet.writeOk then .ok () else .error ()) else .ok ()
  else .error ()

/-- Mirrors the TCP branch of `TunManager::forward_to_proxy`
(tun.rs:1902-1966): on a failed connection to the proxy it falls back to
`forward_direct`; a handshake reply other than `[5, 0]`, a CONNECT reply
with non-zero second byte, or any read/write error returns the error with
no direct attempt. -/
def forward_to_proxy_tcp (net : Socks5Net) (dnet : DirectNet) (hasData : Bool) : FwdOutcome :=
  if net.connectOk then
    if net.hsWriteOk then
      match net.hsReply with
      | none => .errored
      | some (v, m) =>
        if v = 5 ∧ m = 0 then
          if net.reqWriteOk then
            match net.connReply with
            | none => .errored
            | some (_, rep) =>
              if rep = 0 then
                if hasData then (if net.dataWriteOk then .proxied else .errored) else .proxied
              else .errored
          else .errored
        else .errored
    else .errored
  else
    match forward_direct_tcp dnet hasData with
    | .ok _ => .fellBackOk
    | .error _ => .fellBackErr

/-- The new-connection path of `TunManager::handle_tcp_proxy_connection`
(tun.rs:1608-1659): connect to the proxy (a failure is returned as an
error — no direct fallback), then `socks5_handshake` (tun.rs:1754, which
checks the version byte then the method byte) and `socks5_connect`
(tun.rs:1775, which checks the version byte then the reply code), then the
initial payload write. -/
def socks5_new_proxy_connection (net : Socks5Net) (hasData : Bool) : FwdOutcome :=
  if net.connectOk then
    if net.hsWriteOk then
      match net.hsReply with
      | none => .errored
      | some (v, m) =>
        if v ≠ 5 then .errored
        else if m ≠ 0 then .errored
        else if net.reqWriteOk then
          match net.connReply with
          | none => .errored
          | some (v2, rep) =>
            if v2 ≠ 5 then .errored
            else if rep ≠ 0 then .errored
            else if hasData then (if net.dataWriteOk then .proxied else .errored) else .proxied
        else .errored
    else .errored
  else .errored

/-- Mirrors `TunManager::handle_tcp_proxy_connection` (tun.rs:1567): if the
flow has a live proxy stream, write through it (`some true`); if that
write fails (`some false`) the connection is removed and a new SOCKS5
connection is attempted, as when no stream exists (`none`). -/
def handle_tcp_proxy_connection_outcome (existing : Option Bool) (net : Socks5Net)
    (hasData : Bool) : FwdOutcome :=
  match existing with
  | some true => .proxied
  | some false => socks5_new_proxy_connection net hasData
  | none => socks5_new_proxy_connection net hasData

/-- Result of one `route.exe` invocation: success, failure whose stderr
says the route already exists, any other failure output, or an I/O error
spawning the command. -/
inductive ExecResult
  | ok
  | failExists
  | failOther
  | ioErr
deriving DecidableEq, Repr

/-- One `route add`/`route delete` command: destination, mask, and (for
adds) the gateway argument. -/
structure RouteOp where
  isAdd : Bool
  dest : String
  mask : String
  gw : String
deriving DecidableEq, Repr

/-- Route-command execution state: the invocation counter (indexing the
`exec` oracle) and the list of route-table entries added by this run and
not yet deleted by it. -/
structure RouteSt where
  k : Nat
  added : List RouteOp
deriving DecidableEq, Repr

/-- Run one route command: a successful add appends to `added`; a
successful delete removes matching entries; failures leave the table
delta unchanged. -/
def runRouteCmd (exec : Nat → RouteOp → ExecResult) (op : RouteOp) (s : RouteSt) :
    ExecResult × RouteSt :=
  let r := exec s.k op
  let added :=
    if r = ExecResult.ok then
      if op.isAdd then s.added ++ [op]
      else s.added.filter (fun o => !(o.dest == op.dest && o.mask == op.mask))
    else s.added
  (r, ⟨s.k + 1, added⟩)

/-- The split-route and strict-route tail of `set_system_route(true)`
(tun.rs:2533-2614): each of the two split-route adds is fatal on any
failure (including "already exists"); the six strict-mode anti-leak adds
only log failures. -/
def set_system_route_tail (strictRoute : Bool) (tunGw : String)
    (exec : Nat → RouteOp → ExecResult) (s : RouteSt) : Except Unit Unit × RouteSt :=
  match runRouteCmd exec ⟨true, "0.0.0.0", "128.0.0.0", tunGw⟩ s with
  | (ExecResult.ok, s1) =>
    match runRouteCmd exec ⟨true, "128.0.0.0", "128.0.0.0", tunGw⟩ s1 with
    | (ExecResult.ok, s2) =>
      if strictRoute then
        let t1 := (runRouteCmd exec ⟨true, "8.8.8.8", "255.255.255.255", tunGw⟩ s2).2
        let t2 := (runRouteCmd exec ⟨true, "8.8.4.4", "255.255.255.255", tunGw⟩ t1).2
        let t3 := (runRouteCmd exec ⟨true, "1.1.1.1", "255.255.255.255", tunGw⟩ t2).2
        let t4 := (runRouteCmd exec ⟨true, "1.0.0.1", "255.255.255.255", tunGw⟩ t3).2
        let t5 := (runRouteCmd exec ⟨true, "224.0.0.0", "240.0.0.0", tunGw⟩ t4).2
        let t6 := (runRouteCmd exec ⟨true, "255.255.255.255", "255.255.255.255", tunGw⟩ t5).2
        (.ok (), t6)
      else (.ok (), s2)
    | (_, s2) => (.error (), s2)
  | (_, s1) => (.error (), s1)

/-- The enable path of `TunManager::set_system_route` (tun.rs:2417-2614,
Windows): add host routes for the three proxy/DNS servers through the
original default gateway (failures only logged), then the default-route
redirect to the TUN gateway (fatal on failure, with one delete-and-retry
when the stderr says the route already exists), then the split routes and
optional strict-mode routes.  No failure path removes previously added
routes.  Commands that do not mutate the route table (`route print` for
gateway/interface discovery, the `netsh` interface-metric calls, and the
initial `backup_routes`, whose failures are only logged) are not modelled;
the oracle indexes the `route add`/`route delete` invocations in program
order. -/
def set_system_route_enable (strictRoute : Bool) (tunGw defaultGw : String)
    (exec : Nat → RouteOp → ExecResult) : Except Unit Unit × RouteSt :=
  let s1 := (runRouteCmd exec ⟨true, "127.0.0.1", "255.255.255.255", defaultGw⟩ ⟨0, []⟩).2
  let s2 := (runRouteCmd exec ⟨true, "8.8.8.8", "255.255.255.255", defaultGw⟩ s1).2
  let s3 := (runRouteCmd exec ⟨true, "8.8.4.4", "255.255.255.255", defaultGw⟩ s2).2
  match runRouteCmd exec ⟨true, "0.0.0.0", "0.0.0.0", tunGw⟩ s3 with
  | (ExecResult.ok, s4) => set_system_route_tail strictRoute tunGw exec s4
  | (ExecResult.failExists, s4) =>
    let s5 := (runRouteCmd exec ⟨false, "0.0.0.0", "0.0.0.0", ""⟩ s4).2
    match runRouteCmd exec ⟨true, "0.0.0.0", "0.0.0.0", tunGw⟩ s5 with
    | (ExecResult.ok, s6) => set_system_route_tail strictRoute tunGw exec s6
    | (_, s6) => (.error (), s6)
  | (_, s4) => (.error (), s4)

/-- Ghost-instrumented `TunManager` state (tun.rs:240): the running flag,
the device slot, a fresh-id supply for device handles, and the list of
device handles currently open (not yet dropped). -/
structure TunSt where
  running : Bool
  device : Option Nat
  nextId : Nat
  openDevs : List Nat
deriving DecidableEq, Repr

/-- Clearing the device slot drops (closes) its occupant, as assigning
`*device_guard = None` does in Rust. -/
def tunCloseSlot (s : TunSt) : TunSt :=
  match s.device with
  | some d => { s with device := none, openDevs := s.openDevs.erase d }
  | none => s

/-- Mirrors `TunManager::stop` (tun.rs:469): a no-op when not running;
otherwise clear the running flag, abort the packet task, drop the device
handle, then disable routing (which can fail, after the device is already
closed). -/
def tunStop (stopRouteOk : Bool) (s : TunSt) : Except Unit Unit × TunSt :=
  if s.running = false then (.ok (), s)
  else
    let s1 := tunCloseSlot { s with running := false }
    if stopRouteOk then (.ok (), s1) else (.error (), s1)

/-- Mirrors `TunManager::start` (tun.rs:363): admin check; stop first when
already running (`?` propagates a stop failure); create the TUN device and
store it in the slot — the store drops any previously tracked device —
then configure the interface address and the system routes (each fallible
after the device is stored); finally mark the manager running. -/
def tunStart (admin createOk cfgOk routeOk stopRouteOk : Bool) (s : TunSt) :
    Except Unit Unit × TunSt :=
  if admin = false then (.error (), s)
  else
    match (if s.running then tunStop stopRouteOk s else (.ok (), s)) with
    | (.error e, s1) => (.error e, s1)
    | (.ok _, s1) =>
      if createOk = false then (.error (), s1)
      else
        let d := s1.nextId
        let s2 := { s1 with nextId := d + 1, openDevs := d :: s1.openDevs }
        let s3 :=
          match s2.device with
          | some old => { s2 with device := some d, openDevs := s2.openDevs.erase old }
          | none => { s2 with device := some d }
        if cfgOk = false then (.error (), s3)
        else if routeOk = false then (.error (), s3)
        else (.ok (), { s3 with running := true })

/-- Ghost-instrumented `ProxyManager` state (proxy.rs:21): the tracked
child handle, a fresh-pid supply, and the list of live xray processes. -/
structure ProxySt where
  process : Option Nat
  nextPid : Nat
  liveProcs : List Nat
deriving DecidableEq, Repr

/-- Mirrors `ProxyManager::stop` (proxy.rs:137): take and kill the tracked
child, then sweep and kill every remaining xray process (defense against
strays).  Safe to call when nothing is running. -/
def proxyStop (s : ProxySt) : ProxySt :=
  let s1 :=
    match s.process with
    | some pid => { s with process := none, liveProcs := s.liveProcs.erase pid }
    | none => s
  { s1 with liveProcs := [] }

/-- Mirrors `ProxyManager::start` (proxy.rs:54): unconditionally stop
first; spawn the new engine process and track its handle; after the grace
period a child that already exited is discarded and reported as an
error. -/
def proxyStart (spawnOk aliveAfterGrace : Bool) (s : ProxySt) :
    Except Unit Unit × ProxySt :=
  let s1 := proxyStop s
  if spawnOk = false then (.error (), s1)
  else
    let pid := s1.nextPid
    let s2 : ProxySt := ⟨some pid, pid + 1, pid :: s1.liveProcs⟩
    if aliveAfterGrace = false then
      (.error (), { s2 with process := none, liveProcs := s2.liveProcs.erase pid })
    else (.ok (), s2)

/-- Claim C4: for every destination that is loopback, RFC1918 private,
link-local, multicast, broadcast, or in a reserved range (0.0.0.0/8,
240.0.0.0/4), and for every destination port, `should_proxy` returns
`false` (Bypass); likewise for every destination whose port is in the
fixed system-service set 53, 67, 68, 123, 137-139, 161-162, 389, 636,
445, 3702, 5353, 5355, 88, 464, 135.  (The configured bypass-list clause
of the claim is vacuous: neither `TunConfig` nor `should_proxy` has a
bypass list, so no address matches it.)  The result is independent of
whether the proxy process is running. -/
theorem c4_bypass_ranges_and_ports (pr : Bool) (ip : Ipv4) (port : Nat)
    (h : ip.isLoopback = true ∨ ip.isPrivate = true ∨ ip.isLinkLocal = true ∨
         ip.isMulticast = true ∨ ip.isBroadcast = true ∨ is_reserved_ip ip = true ∨
         port ∈ ([53, 67, 68, 123, 137, 138, 139, 161, 162, 389, 636, 445,
                  3702, 5353, 5355, 88, 464, 135] : List Nat)) :
    should_proxy pr ip port = false := by
  have hport : port ∈ ([53, 67, 68, 123, 137, 138, 139, 161, 162, 389, 636, 445,
                  3702, 5353, 5355, 88, 464, 135] : List Nat) →
      is_system_port port = true := by
    intro hm
    simp only [List.mem_cons, List.not_mem_nil, or_false] at hm
    rcases hm with rfl | rfl | rfl | rfl | rfl | rfl | rfl | rfl | rfl | rfl | rfl | rfl |
      rfl | rfl | rfl | rfl | rfl | rfl <;> rfl
  rcases h with h | h | h | h | h | h | h
  · simp [should_proxy, h]
  · simp [should_proxy, h]
  · simp [should_proxy, h]
  · simp [should_proxy, h]
  · simp [should_proxy, h]
  · simp [should_proxy, h]
  · simp [should_proxy, hport h]

/-- Witness for C4 at concrete inputs: 192.168.1.5 is bypassed on port 443,
and 8.8.8.8 is bypassed on port 53. -/
theorem c4_bypass_witness :
    (Ipv4.isLoopback ⟨192, 168, 1, 5⟩ = true ∨ Ipv4.isPrivate ⟨192, 168, 1, 5⟩ = true ∨
     Ipv4.isLinkLocal ⟨192, 168, 1, 5⟩ = true ∨ Ipv4.isMulticast ⟨192, 168, 1, 5⟩ = true ∨
     Ipv4.isBroadcast ⟨192, 168, 1, 5⟩ = true ∨ is_reserved_ip ⟨192, 168, 1, 5⟩ = true ∨
     (443 : Nat) ∈ ([53, 67, 68, 123, 137, 138, 139, 161, 162, 389, 636, 445,
                  3702, 5353, 5355, 88, 464, 135] : List Nat)) ∧
    should_proxy true ⟨192, 168, 1, 5⟩ 443 = false ∧
    should_proxy true ⟨8, 8, 8, 8⟩ 53 = false :=
  ⟨Or.inr (Or.inl (by decide)),
   c4_bypass_ranges_and_ports true ⟨192, 168, 1, 5⟩ 443 (Or.inr (Or.inl (by decide))),
   c4_bypass_ranges_and_ports true ⟨8, 8, 8, 8⟩ 53
     (Or.inr (Or.inr (Or.inr (Or.inr (Or.inr (Or.inr (by decide))))))) ⟩

theorem parseDnsLoop_eq_spec (dnsData : List Nat) (pos : Nat) (acc : List Nat) :
    parseDnsLoop dnsData pos acc =
      Option.map (joinLabels acc) (dnsSpecLabels dnsData pos) := by
  rw [parseDnsLoop, dnsSpecLabels]
  by_cases hpos : pos < dnsData.length
  · rw [dif_pos hpos, dif_pos hpos]
    by_cases hlen : dnsData.getD pos 0 = 0
    · rw [dif_pos hlen, dif_pos hlen]
      simp [joinLabels]
    · rw [dif_neg hlen, dif_neg hlen]
      by_cases hov : dnsData.length < pos + 1 + dnsData.getD pos 0
      · rw [if_pos hov, if_pos hov]
        rfl
      · rw [if_neg hov, if_neg hov]
        rw [parseDnsLoop_eq_spec]
        cases hs : dnsSpecLabels dnsData (pos + 1 + dnsData.getD pos 0) with
        | none => rfl
        | some ls => simp [joinLabels]
  · rw [dif_neg hpos, dif_neg hpos]
    simp [joinLabels]
termination_by dnsData.length - pos
decreasing_by
  simp_wf
  omega

theorem dnsSpecLabels_ne_nil (dnsData : List Nat) (pos : Nat) (ls : List (List Nat))
    (h : dnsSpecLabels dnsData pos = some ls) : ∀ l ∈ ls, l ≠ [] := by
  rw [dnsSpecLabels] at h
  by_cases hpos : pos < dnsData.length
  · rw [dif_pos hpos] at h
    by_cases hlen : dnsData.getD pos 0 = 0
    · rw [dif_pos hlen] at h
      cases h
      intro l hl
      cases hl
    · rw [dif_neg hlen] at h
      by_cases hov : dnsData.length < pos + 1 + dnsData.getD pos 0
      · rw [if_pos hov] at h
        exact Option.noConfusion h
      · rw [if_neg hov] at h
        cases hs : dnsSpecLabels dnsData (pos + 1 + dnsData.getD pos 0) with
        | none =>
          rw [hs] at h
          exact Option.noConfusion h
        | some ls2 =>
          rw [hs] at h
          simp only [Option.map] at h
          cases h
          intro l hl
          rcases List.mem_cons.mp hl with rfl | hmem
          · intro habs
            have hlength := congrArg List.length habs
            simp only [List.length_take, List.length_drop, List.length_nil] at hlength
            omega
          · exact dnsSpecLabels_ne_nil dnsData (pos + 1 + dnsData.getD pos 0) ls2 hs l hmem
  · rw [dif_neg hpos] at h
    cases h
    intro l hl
    cases hl
termination_by dnsData.length - pos
decreasing_by
  simp_wf
  omega

theorem joinLabels_ne_nil (ls : List (List Nat)) (a : List Nat) (ha : a ≠ []) :
    joinLabels a ls ≠ [] := by
  induction ls generalizing a with
  | nil => simpa [joinLabels]
  | cons l t ih =>
    have hstep : (a ++ (if a = [] then [] else [46]) ++ l) ≠ [] := by
      simp [ha]
    simpa [joinLabels] using ih _ hstep

/-- Claim C10: `parse_dns_query` is total and matches the claimed
characterization: it returns `none` exactly when the input is shorter than
12 bytes, when the question name is empty (zero first label length byte, or
no label bytes at all), or when a label's declared length runs past the end
of the buffer (`dnsSpecQuestion`, written from the claim, captures those
conditions); otherwise it returns the dot-joined label text. -/
theorem c10_parse_dns_query_total (d : List Nat) :
    parse_dns_query d = Option.map (joinLabels []) (dnsSpecQuestion d) := by
  rw [parse_dns_query, dnsSpecQuestion]
  by_cases hlen : d.length < 12
  · rw [if_pos hlen, if_pos hlen]
    rfl
  · rw [if_neg hlen, if_neg hlen, parseDnsLoop_eq_spec]
    cases hs : dnsSpecLabels d 12 with
    | none => rfl
    | some ls =>
      cases ls with
      | nil => simp [joinLabels]
      | cons l t =>
        have hl : l ≠ [] := dnsSpecLabels_ne_nil d 12 (l :: t) hs l (by simp)
        have hjoin : joinLabels [] (l :: t) ≠ [] := by
          have : joinLabels [] (l :: t) = joinLabels l t := by
            simp [joinLabels]
          rw [this]
          exact joinLabels_ne_nil t l hl
        simp [hjoin]

theorem lookupFst_mem (m : List (List Nat × Nat)) (d : List Nat) (a : Nat)
    (h : lookupFst m d = some a) : (d, a) ∈ m := by
  induction m with
  | nil => exact Option.noConfusion h
  | cons p t ih =>
    rw [lookupFst] at h
    by_cases hk : p.1 = d
    · rw [if_pos hk] at h
      cases h
      have hp : p = (d, p.2) := by
        cases p
        simp_all
      rw [← hp]
      exact List.mem_cons_self p t
    · rw [if_neg hk] at h
      exact List.mem_cons_of_mem p (ih h)

theorem allocate_fake_ip_inv (s : FakeIpSt) (d : List Nat) (hInv : FakeInv s) :
    FakeInv (allocate_fake_ip s d).2 := by
  obtain ⟨hlt, hinj, hub, hmod⟩ := hInv
  rw [allocate_fake_ip]
  cases hl : lookupFst s.domainToFake d with
  | some a => exact ⟨hlt, hinj, hub, hmod⟩
  | none =>
    by_cases hfull : s.endIp < s.nextIp
    · rw [if_pos hfull]
      exact ⟨hlt, hinj, hub, hmod⟩
    · rw [if_neg hfull]
      have hnw : (s.nextIp + 1) % 4294967296 = s.nextIp + 1 := by
        apply Nat.mod_eq_of_lt
        omega
      refine ⟨?_, ?_, ?_, ?_⟩
      · intro p hp
        simp only [hnw]
        rcases List.mem_cons.mp hp with rfl | hmem
        · omega
        · exact Nat.lt_succ_of_lt (hlt p hmem)
      · intro d1 d2 a1 a2 h1 h2 hne
        simp only [lookupFst] at h1 h2
        by_cases hk1 : d = d1
        · rw [if_pos hk1] at h1
          cases h1
          by_cases hk2 : d = d2
          · exact absurd (hk1 ▸ hk2) hne
          · rw [if_neg hk2] at h2
            have := hlt (d2, a2) (lookupFst_mem _ _ _ h2)
            simp only at this
            omega
        · rw [if_neg hk1] at h1
          by_cases hk2 : d = d2
          · rw [if_pos hk2] at h2
            cases h2
            have := hlt (d1, a1) (lookupFst_mem _ _ _ h1)
            simp only at this
            omega
          · rw [if_neg hk2] at h2
            exact hinj d1 d2 a1 a2 h1 h2 hne
      · simp only [hnw]
        omega
      · exact hmod

theorem runAllocs_inv (s : FakeIpSt) (ds : List (List Nat)) (hInv : FakeInv s) :
    FakeInv (runAllocs s ds) := by
  induction ds generalizing s with
  | nil => exact hInv
  | cons d t ih =>
    rw [runAllocs, List.foldl_cons]
    exact ih _ (allocate_fake_ip_inv s d hInv)

theorem mkFakeIpSt_inv (startIp endV : Nat) (hse : startIp ≤ endV + 1)
    (hmod : endV + 1 < 4294967296) : FakeInv (mkFakeIpSt startIp endV) := by
  refine ⟨?_, ?_, hse, hmod⟩
  · intro p hp
    cases hp
  · intro d1 d2 a1 a2 h1 h2 hne
    exact Option.noConfusion h1

theorem allocate_fake_ip_idem (s : FakeIpSt) (d : List Nat) (a : Nat)
    (h : (allocate_fake_ip s d).1 = .ok a) :
    (allocate_fake_ip (allocate_fake_ip s d).2 d).1 = .ok a := by
  cases hl : lookupFst s.domainToFake d with
  | some b =>
    simp only [allocate_fake_ip, hl] at h ⊢
    exact h
  | none =>
    by_cases hfull : s.endIp < s.nextIp
    · simp only [allocate_fake_ip, hl, if_pos hfull] at h
      exact Except.noConfusion h
    · simp only [allocate_fake_ip, hl, if_neg hfull] at h ⊢
      cases h
      simp [lookupFst]

theorem allocate_fake_ip_inj (s : FakeIpSt) (hInv : FakeInv s) (d1 d2 : List Nat)
    (hne : d1 ≠ d2) (a1 a2 : Nat)
    (h1 : (allocate_fake_ip s d1).1 = .ok a1)
    (h2 : (allocate_fake_ip (allocate_fake_ip s d1).2 d2).1 = .ok a2) : a1 ≠ a2 := by
  obtain ⟨hlt, hinj, hub, hmod⟩ := hInv
  cases hl1 : lookupFst s.domainToFake d1 with
  | some b1 =>
    simp only [allocate_fake_ip, hl1] at h1 h2
    cases h1
    cases hl2 : lookupFst s.domainToFake d2 with
    | some b2 =>
      simp only [hl2] at h2
      cases h2
      exact hinj d1 d2 _ _ hl1 hl2 hne
    | none =>
      simp only [hl2] at h2
      by_cases hfull : s.endIp < s.nextIp
      · rw [if_pos hfull] at h2
        exact Except.noConfusion h2
      · rw [if_neg hfull] at h2
        simp only at h2
        cases h2
        have := hlt _ (lookupFst_mem _ _ _ hl1)
        simp only at this
        omega
  | none =>
    by_cases hfull : s.endIp < s.nextIp
    · simp only [allocate_fake_ip, hl1, if_pos hfull] at h1
      exact Except.noConfusion h1
    · have hnw : (s.nextIp + 1) % 4294967296 = s.nextIp + 1 := by
        apply Nat.mod_eq_of_lt
        omega
      simp only [allocate_fake_ip, hl1, if_neg hfull] at h1 h2
      cases h1
      simp only [lookupFst, if_neg hne, hnw] at h2
      cases hl2 : lookupFst s.domainToFake d2 with
      | some b2 =>
        rw [hl2] at h2
        simp only at h2
        cases h2
        have := hlt _ (lookupFst_mem _ _ _ hl2)
        simp only at this
        omega
      | none =>
        rw [hl2] at h2
        by_cases hfull2 : s.endIp < s.nextIp + 1
        · rw [if_pos hfull2] at h2
          exact Except.noConfusion h2
        · rw [if_neg hfull2] at h2
          simp only at h2
          cases h2
          omega

/-- Claim C8: over any state reachable by a sequence of allocations from a
fresh pool, `allocate_fake_ip` is idempotent per domain (a second call for
the same domain returns the same address) and injective across domains
(two successful allocations for distinct domains return distinct
addresses).  The pool bounds are assumed well formed (`start <= end + 1`)
and `end < u32::MAX`, so the `u32` cursor increment cannot wrap. -/
theorem c8_allocate_idempotent_injective (startIp endV : Nat)
    (hse : startIp ≤ endV + 1) (hmod : endV + 1 < 4294967296)
    (ds : List (List Nat)) (d d1 d2 : List Nat) (hne : d1 ≠ d2) (a a1 a2 : Nat) :
    ((allocate_fake_ip (runAllocs (mkFakeIpSt startIp endV) ds) d).1 = .ok a →
      (allocate_fake_ip
        (allocate_fake_ip (runAllocs (mkFakeIpSt startIp endV) ds) d).2 d).1 = .ok a) ∧
    ((allocate_fake_ip (runAllocs (mkFakeIpSt startIp endV) ds) d1).1 = .ok a1 →
      (allocate_fake_ip
        (allocate_fake_ip (runAllocs (mkFakeIpSt startIp endV) ds) d1).2 d2).1 = .ok a2 →
      a1 ≠ a2) := by
  constructor
  · exact allocate_fake_ip_idem _ d a
  · exact allocate_fake_ip_inj _
      (runAllocs_inv _ ds (mkFakeIpSt_inv startIp endV hse hmod)) d1 d2 hne a1 a2

/-- Witness for C8: from a fresh pool 10..12, allocating domain `[97]`
twice yields 10 both times, and allocating `[97]` then `[98]` yields the
distinct addresses 10 and 11. -/
theorem c8_allocate_witness :
    (allocate_fake_ip
      (allocate_fake_ip (runAllocs (mkFakeIpSt 10 12) []) [97]).2 [97]).1 = .ok 10 ∧
    (10 : Nat) ≠ 11 := by
  have h := c8_allocate_idempotent_injective 10 12 (by omega) (by omega)
    [] [97] [97] [98] (by decide) 10 10 11
  exact ⟨h.1 rfl, h.2 rfl rfl⟩

/-- Counterexample to claim C3: the FakeIP allocation actually performed by
`handle_dns_hijack` (tun.rs:1405-1425) wraps the cursor around instead of
failing.  With pool 198.18.0.1 .. 198.18.0.2, allocating three distinct
domains yields 198.18.0.1, 198.18.0.2, and then 198.18.0.1 again: after the
cursor reaches the end address it is reset to the start address and the
start address is reused for a new domain, with no `PoolExhausted` error
(the inline allocator has no error case at all). -/
theorem c3_wraparound_counterexample :
    ((hijack_allocate (mkFakeIpSt (Ipv4.toU32 ⟨198, 18, 0, 1⟩)
        (Ipv4.toU32 ⟨198, 18, 0, 2⟩)) [97]).1 = Ipv4.toU32 ⟨198, 18, 0, 1⟩) ∧
    ((hijack_allocate (hijack_allocate (mkFakeIpSt (Ipv4.toU32 ⟨198, 18, 0, 1⟩)
        (Ipv4.toU32 ⟨198, 18, 0, 2⟩)) [97]).2 [98]).1 = Ipv4.toU32 ⟨198, 18, 0, 2⟩) ∧
    ((hijack_allocate (hijack_allocate (hijack_allocate (mkFakeIpSt (Ipv4.toU32 ⟨198, 18, 0, 1⟩)
        (Ipv4.toU32 ⟨198, 18, 0, 2⟩)) [97]).2 [98]).2 [99]).1 = Ipv4.toU32 ⟨198, 18, 0, 1⟩) ∧
    ((hijack_allocate (hijack_allocate (mkFakeIpSt (Ipv4.toU32 ⟨198, 18, 0, 1⟩)
        (Ipv4.toU32 ⟨198, 18, 0, 2⟩)) [97]).2 [98]).2.nextIp = Ipv4.toU32 ⟨198, 18, 0, 1⟩) := by
  refine ⟨rfl, rfl, rfl, rfl⟩

/-- Claim C3 (amended): `FakeIpManager::allocate_fake_ip` does satisfy the
claim — for an unmapped domain it fails (pool full) exactly when the cursor
has passed `end_ip`, leaving the state unchanged, and otherwise hands out
the cursor value and advances the cursor by one — but the inline allocator
of `handle_dns_hijack` does not: when the cursor sits at `end_ip` it hands
out `end_ip` and wraps the cursor back to `start_ip`, so the live DNS-hijack
path recycles pool addresses instead of erroring. -/
theorem c3_cursor_behavior (s : FakeIpSt) (d : List Nat)
    (hl : lookupFst s.domainToFake d = none) :
    (s.endIp < s.nextIp →
      (allocate_fake_ip s d).1 = .error () ∧ (allocate_fake_ip s d).2 = s) ∧
    (s.nextIp ≤ s.endIp →
      (allocate_fake_ip s d).1 = .ok s.nextIp ∧
      (allocate_fake_ip s d).2.nextIp = (s.nextIp + 1) % 4294967296) ∧
    (s.nextIp = s.endIp →
      (hijack_allocate s d).1 = s.endIp ∧ (hijack_allocate s d).2.nextIp = s.startIp) := by
  refine ⟨?_, ?_, ?_⟩
  · intro hfull
    simp [allocate_fake_ip, hl, if_pos hfull]
  · intro hroom
    have : ¬ s.endIp < s.nextIp := by omega
    simp [allocate_fake_ip, hl, if_neg this]
  · intro hend
    simp [hijack_allocate, hl, hend]

/-- Witness for the amended C3 at concrete states: a pool whose cursor has
passed the end errors and stays put; a pool with room allocates the cursor
value; and the hijack-path allocator sitting at the end wraps to the start. -/
theorem c3_cursor_behavior_witness :
    ((allocate_fake_ip (mkFakeIpSt 7 5) [97]).1 = .error () ∧
      (allocate_fake_ip (mkFakeIpSt 7 5) [97]).2 = mkFakeIpSt 7 5) ∧
    ((allocate_fake_ip (mkFakeIpSt 5 5) [97]).1 = .ok (mkFakeIpSt 5 5).nextIp ∧
      (allocate_fake_ip (mkFakeIpSt 5 5) [97]).2.nextIp =
        ((mkFakeIpSt 5 5).nextIp + 1) % 4294967296) ∧
    ((hijack_allocate (mkFakeIpSt 5 5) [97]).1 = (mkFakeIpSt 5 5).endIp ∧
      (hijack_allocate (mkFakeIpSt 5 5) [97]).2.nextIp = (mkFakeIpSt 5 5).startIp) :=
  ⟨(c3_cursor_behavior (mkFakeIpSt 7 5) [97] rfl).1 (by decide),
   (c3_cursor_behavior (mkFakeIpSt 5 5) [97] rfl).2.1 (by decide),
   (c3_cursor_behavior (mkFakeIpSt 5 5) [97] rfl).2.2 (by decide)⟩

/-- Claim C7: for every DNS query of at least 12 bytes and every answer
address, the synthesized response is the query with byte 2 set to 0x81
(QR=1), byte 3 set to 0x80 (RA=1) and ANCOUNT (bytes 6-7) set to 1,
followed by exactly one appended A record: pointer 0xc0 0x0c, type A,
class IN, TTL 300, data length 4, and the 4-byte answer address; the
response is 16 bytes longer than the query.  Scenario: with pool start
198.18.0.1, the first domain allocated on the DNS-hijack path receives
198.18.0.1, the wire query for example.com parses to that domain, and the
synthesized response ends in the bytes 198, 18, 0, 1. -/
theorem c7_dns_response_shape (queryData : List Nat) (ip : Ipv4)
    (hq : 12 ≤ queryData.length) :
    create_dns_response queryData ip =
      ((((queryData.set 2 129).set 3 128).set 6 0).set 7 1) ++
        [192, 12, 0, 1, 0, 1, 0, 0, 1, 44, 0, 4] ++ ip.octets ∧
    (create_dns_response queryData ip).length = queryData.length + 16 ∧
    (hijack_allocate
        (mkFakeIpSt (Ipv4.toU32 ⟨198, 18, 0, 1⟩) (Ipv4.toU32 ⟨198, 18, 255, 254⟩))
        [101, 120, 97, 109, 112, 108, 101, 46, 99, 111, 109]).1 =
      Ipv4.toU32 ⟨198, 18, 0, 1⟩ ∧
    ipv4OfU32 (Ipv4.toU32 ⟨198, 18, 0, 1⟩) = ⟨198, 18, 0, 1⟩ ∧
    parse_dns_query
        [18, 52, 1, 0, 0, 1, 0, 0, 0, 0, 0, 0, 7, 101, 120, 97, 109, 112, 108, 101,
         3, 99, 111, 109, 0, 0, 1, 0, 1] =
      some [101, 120, 97, 109, 112, 108, 101, 46, 99, 111, 109] ∧
    (create_dns_response
        [18, 52, 1, 0, 0, 1, 0, 0, 0, 0, 0, 0, 7, 101, 120, 97, 109, 112, 108, 101,
         3, 99, 111, 109, 0, 0, 1, 0, 1] ⟨198, 18, 0, 1⟩).drop 41 = [198, 18, 0, 1] := by
  have hnot : ¬ queryData.length < 12 := by omega
  refine ⟨?_, ?_, ?_, ?_, ?_, ?_⟩
  · rw [create_dns_response, if_neg hnot]
  · rw [create_dns_response, if_neg hnot]
    simp [Ipv4.octets]
  · rfl
  · rfl
  · simp [parse_dns_query, parseDnsLoop]
  · rfl

/-- Witness for C7 at the concrete example.com wire query. -/
theorem c7_dns_response_witness :
    12 ≤ ([18, 52, 1, 0, 0, 1, 0, 0, 0, 0, 0, 0, 7, 101, 120, 97, 109, 112, 108, 101,
           3, 99, 111, 109, 0, 0, 1, 0, 1] : List Nat).length ∧
    (create_dns_response
        [18, 52, 1, 0, 0, 1, 0, 0, 0, 0, 0, 0, 7, 101, 120, 97, 109, 112, 108, 101,
         3, 99, 111, 109, 0, 0, 1, 0, 1] ⟨198, 18, 0, 1⟩).length =
      ([18, 52, 1, 0, 0, 1, 0, 0, 0, 0, 0, 0, 7, 101, 120, 97, 109, 112, 108, 101,
        3, 99, 111, 109, 0, 0, 1, 0, 1] : List Nat).length + 16 :=
  ⟨by decide,
   (c7_dns_response_shape
      [18, 52, 1, 0, 0, 1, 0, 0, 0, 0, 0, 0, 7, 101, 120, 97, 109, 112, 108, 101,
       3, 99, 111, 109, 0, 0, 1, 0, 1] ⟨198, 18, 0, 1⟩ (by decide)).2.1⟩

theorem foldCarry_lt (s : Nat) : foldCarry s < 65536 := by
  rw [foldCarry]
  split
  · exact foldCarry_lt _
  · omega
termination_by s
decreasing_by
  omega

theorem foldCarry_le_self (s : Nat) : foldCarry s ≤ s := by
  rw [foldCarry]
  split
  · have h := foldCarry_le_self (s % 65536 + s / 65536)
    omega
  · exact Nat.le_refl s
termination_by s
decreasing_by
  omega

theorem foldCarry_mod_65535 (s : Nat) : foldCarry s % 65535 = s % 65535 := by
  rw [foldCarry]
  split
  · have h := foldCarry_mod_65535 (s % 65536 + s / 65536)
    omega
  · rfl
termination_by s
decreasing_by
  omega

theorem foldCarry_pos (s : Nat) (hpos : 0 < s) : 0 < foldCarry s := by
  rw [foldCarry]
  split
  · apply foldCarry_pos
    omega
  · exact hpos
termination_by s
decreasing_by
  omega

theorem wrapSumAux_eq_sum (ws : List Nat) (acc : Nat) (h : acc + ws.sum < 4294967296) :
    wrapSumAux acc ws = acc + ws.sum := by
  induction ws generalizing acc with
  | nil => simp [wrapSumAux]
  | cons w t ih =>
    rw [wrapSumAux, List.foldl_cons]
    have hsum : (acc + w) % 4294967296 = acc + w := by
      apply Nat.mod_eq_of_lt
      simp [List.sum_cons] at h
      omega
    rw [hsum]
    have := ih (acc + w) (by simp [List.sum_cons] at h; omega)
    rw [wrapSumAux] at this
    rw [this]
    simp [List.sum_cons]
    omega

/-- Completeness of the internet checksum: adding the computed complement to
the word sum and folding the carries yields 0xFFFF (so re-running
`calculate_checksum` over the checksummed data yields 0). -/
theorem internet_checksum_complete (S : Nat) (hpos : 0 < S) :
    foldCarry (S + (65535 - foldCarry S)) = 65535 := by
  have h1 : foldCarry S ≤ S := foldCarry_le_self S
  have h2 : foldCarry S < 65536 := foldCarry_lt S
  have h3 : foldCarry S % 65535 = S % 65535 := foldCarry_mod_65535 S
  have h4 : foldCarry (S + (65535 - foldCarry S)) < 65536 :=
    foldCarry_lt (S + (65535 - foldCarry S))
  have h5 : foldCarry (S + (65535 - foldCarry S)) % 65535 =
      (S + (65535 - foldCarry S)) % 65535 := foldCarry_mod_65535 _
  have h6 : 0 < foldCarry (S + (65535 - foldCarry S)) :=
    foldCarry_pos _ (by omega)
  omega

theorem header_checksum_zero (b2 b3 p c12 c13 c14 c15 c16 c17 c18 c19 : Nat)
    (h2 : b2 < 256) (h3 : b3 < 256) (hp : p < 256)
    (h12 : c12 < 256) (h13 : c13 < 256) (h14 : c14 < 256) (h15 : c15 < 256)
    (h16 : c16 < 256) (h17 : c17 < 256) (h18 : c18 < 256) (h19 : c19 < 256) :
    calculate_checksum
      [69, 0, b2, b3, 0, 0, 64, 0, 64, p,
       calculate_checksum [69, 0, b2, b3, 0, 0, 64, 0, 64, p, 0, 0,
         c12, c13, c14, c15, c16, c17, c18, c19] / 256 % 256,
       calculate_checksum [69, 0, b2, b3, 0, 0, 64, 0, 64, p, 0, 0,
         c12, c13, c14, c15, c16, c17, c18, c19] % 256,
       c12, c13, c14, c15, c16, c17, c18, c19] = 0 := by
  set ck := calculate_checksum [69, 0, b2, b3, 0, 0, 64, 0, 64, p, 0, 0,
    c12, c13, c14, c15, c16, c17, c18, c19] with hck
  set SZ := (checksumWords [69, 0, b2, b3, 0, 0, 64, 0, 64, p, 0, 0,
    c12, c13, c14, c15, c16, c17, c18, c19]).sum with hSZ
  have hSZbound : SZ ≤ 655350 := by
    rw [hSZ]
    simp [checksumWords, List.sum_cons, List.sum_nil]
    omega
  have hSZpos : 0 < SZ := by
    rw [hSZ]
    simp [checksumWords, List.sum_cons, List.sum_nil]
  have hwrapZ : wrapSumAux 0 (checksumWords [69, 0, b2, b3, 0, 0, 64, 0, 64, p, 0, 0,
      c12, c13, c14, c15, c16, c17, c18, c19]) = SZ := by
    rw [wrapSumAux_eq_sum _ 0 (by omega)]
    omega
  have hckeq : ck = 65535 - foldCarry SZ := by
    rw [hck, calculate_checksum, hwrapZ, Nat.mod_eq_of_lt (foldCarry_lt SZ)]
  have hcklt : ck ≤ 65535 := by omega
  have hsumF : (checksumWords
      [69, 0, b2, b3, 0, 0, 64, 0, 64, p, ck / 256 % 256, ck % 256,
       c12, c13, c14, c15, c16, c17, c18, c19]).sum = SZ + ck := by
    rw [hSZ]
    simp [checksumWords, List.sum_cons, List.sum_nil]
    omega
  have hwrapF : wrapSumAux 0 (checksumWords
      [69, 0, b2, b3, 0, 0, 64, 0, 64, p, ck / 256 % 256, ck % 256,
       c12, c13, c14, c15, c16, c17, c18, c19]) = SZ + ck := by
    rw [wrapSumAux_eq_sum _ 0 (by rw [hsumF]; omega)]
    omega
  have hcomplete := internet_checksum_complete SZ hSZpos
  rw [calculate_checksum, hwrapF, hckeq, hcomplete]

theorem decodePacket_write_response_tcp (srcIp dstIp : Ipv4) (srcPort dstPort : Nat)
    (data : List Nat) (hsp : srcPort < 65536) (hdp : dstPort < 65536) :
    decodePacket (write_response_packet srcIp srcPort dstIp dstPort data 6) =
      some ⟨6, dstIp, dstPort, srcIp, srcPort, data⟩ := by
  simp [write_response_packet, decodePacket, Ipv4.octets]
  omega

theorem decodePacket_write_response_udp (srcIp dstIp : Ipv4) (srcPort dstPort : Nat)
    (data : List Nat) (hsp : srcPort < 65536) (hdp : dstPort < 65536) :
    decodePacket (write_response_packet srcIp srcPort dstIp dstPort data 17) =
      some ⟨17, dstIp, dstPort, srcIp, srcPort, data⟩ := by
  simp [write_response_packet, decodePacket, Ipv4.octets]
  omega

/-- Claim C5 (amended): for every flow and payload whose total length fits
the 16-bit IPv4 total-length field (payload at most 65495 bytes — the
field silently truncates beyond that, see the counterexample), the packet
built by `write_response_packet` has first byte 0x45 (version 4, IHL 5, no
options), TTL byte 64, actual length and 16-bit total-length field equal
to 20 + transport header (20 for TCP, 8 for UDP) + payload length, a
header checksum that re-verifies to zero under the same ones'-complement
algorithm, and decodes by the documented field offsets to the swapped
addresses, swapped ports, and the original payload. -/
theorem c5_response_packet_roundtrip (srcIp dstIp : Ipv4) (srcPort dstPort : Nat)
    (data : List Nat) (hs : srcIp.Valid) (hd : dstIp.Valid)
    (hsp : srcPort < 65536) (hdp : dstPort < 65536) (hlen : data.length ≤ 65495) :
    ((write_response_packet srcIp srcPort dstIp dstPort data 6).length = 40 + data.length ∧
     (write_response_packet srcIp srcPort dstIp dstPort data 6).getD 0 0 = 69 ∧
     (write_response_packet srcIp srcPort dstIp dstPort data 6).getD 8 0 = 64 ∧
     (write_response_packet srcIp srcPort dstIp dstPort data 6).getD 2 0 * 256 +
       (write_response_packet srcIp srcPort dstIp dstPort data 6).getD 3 0 =
         40 + data.length ∧
     calculate_checksum
       ((write_response_packet srcIp srcPort dstIp dstPort data 6).take 20) = 0 ∧
     decodePacket (write_response_packet srcIp srcPort dstIp dstPort data 6) =
       some ⟨6, dstIp, dstPort, srcIp, srcPort, data⟩) ∧
    ((write_response_packet srcIp srcPort dstIp dstPort data 17).length = 28 + data.length ∧
     (write_response_packet srcIp srcPort dstIp dstPort data 17).getD 0 0 = 69 ∧
     (write_response_packet srcIp srcPort dstIp dstPort data 17).getD 8 0 = 64 ∧
     (write_response_packet srcIp srcPort dstIp dstPort data 17).getD 2 0 * 256 +
       (write_response_packet srcIp srcPort dstIp dstPort data 17).getD 3 0 =
         28 + data.length ∧
     calculate_checksum
       ((write_response_packet srcIp srcPort dstIp dstPort data 17).take 20) = 0 ∧
     decodePacket (write_response_packet srcIp srcPort dstIp dstPort data 17) =
       some ⟨17, dstIp, dstPort, srcIp, srcPort, data⟩) := by
  obtain ⟨hs0, hs1, hs2, hs3⟩ := hs
  obtain ⟨hd0, hd1, hd2, hd3⟩ := hd
  refine ⟨⟨?_, ?_, ?_, ?_, ?_, ?_⟩, ⟨?_, ?_, ?_, ?_, ?_, ?_⟩⟩
  · simp [write_response_packet, Ipv4.octets]
    omega
  · simp [write_response_packet, Ipv4.octets]
  · simp [write_response_packet, Ipv4.octets]
  · simp [write_response_packet, Ipv4.octets]
    omega
  · simp only [write_response_packet, Ipv4.octets, if_pos rfl]
    simp only [List.cons_append, List.nil_append, List.take_succ_cons, List.take_zero]
    exact header_checksum_zero _ _ _ _ _ _ _ _ _ _ _
      (by omega) (by omega) (by omega) hd0 hd1 hd2 hd3 hs0 hs1 hs2 hs3
  · exact decodePacket_write_response_tcp srcIp dstIp srcPort dstPort data hsp hdp
  · simp [write_response_packet, Ipv4.octets]
    omega
  · simp [write_response_packet, Ipv4.octets]
  · simp [write_response_packet, Ipv4.octets]
  · simp [write_response_packet, Ipv4.octets]
    omega
  · simp only [write_response_packet, Ipv4.octets]
    rw [if_neg (by omega)]
    simp only [List.cons_append, List.nil_append, List.take_succ_cons, List.take_zero]
    exact header_checksum_zero _ _ _ _ _ _ _ _ _ _ _
      (by omega) (by omega) (by omega) hd0 hd1 hd2 hd3 hs0 hs1 hs2 hs3
  · exact decodePacket_write_response_udp srcIp dstIp srcPort dstPort data hsp hdp

/-- Witness for the amended C5 at a concrete flow: client
192.168.55.2:5000 to 1.2.3.4:80 with payload [10, 20, 30]. -/
theorem c5_response_packet_witness :
    decodePacket (write_response_packet ⟨192, 168, 55, 2⟩ 5000 ⟨1, 2, 3, 4⟩ 80 [10, 20, 30] 6) =
      some ⟨6, ⟨1, 2, 3, 4⟩, 80, ⟨192, 168, 55, 2⟩, 5000, [10, 20, 30]⟩ ∧
    calculate_checksum
      ((write_response_packet ⟨192, 168, 55, 2⟩ 5000 ⟨1, 2, 3, 4⟩ 80 [10, 20, 30] 17).take 20) = 0 :=
  ⟨((c5_response_packet_roundtrip ⟨192, 168, 55, 2⟩ ⟨1, 2, 3, 4⟩ 5000 80 [10, 20, 30]
      ⟨by decide, by decide, by decide, by decide⟩ ⟨by decide, by decide, by decide, by decide⟩
      (by decide) (by decide) (by decide)).1).2.2.2.2.2,
   ((c5_response_packet_roundtrip ⟨192, 168, 55, 2⟩ ⟨1, 2, 3, 4⟩ 5000 80 [10, 20, 30]
      ⟨by decide, by decide, by decide, by decide⟩ ⟨by decide, by decide, by decide, by decide⟩
      (by decide) (by decide) (by decide)).2).2.2.2.2.1⟩

/-- Counterexample to claim C5 as stated: the claim quantifies over every
payload, but the 16-bit total-length field truncates.  For a 65496-byte
TCP payload the true total 20 + 20 + 65496 = 65536 is written as 0, so the
field does not equal 20 plus the transport header size plus the payload
length. -/
theorem c5_total_length_truncates :
    ¬ ((write_response_packet ⟨192, 168, 55, 2⟩ 5000 ⟨1, 2, 3, 4⟩ 80
          (List.replicate 65496 0) 6).getD 2 0 * 256 +
        (write_response_packet ⟨192, 168, 55, 2⟩ 5000 ⟨1, 2, 3, 4⟩ 80
          (List.replicate 65496 0) 6).getD 3 0 =
        20 + 20 + (List.replicate 65496 (0 : Nat)).length) := by
  intro habs
  have hfield : ∀ data : List Nat,
      (write_response_packet ⟨192, 168, 55, 2⟩ 5000 ⟨1, 2, 3, 4⟩ 80 data 6).getD 2 0 =
        (40 + data.length) % 65536 / 256 ∧
      (write_response_packet ⟨192, 168, 55, 2⟩ 5000 ⟨1, 2, 3, 4⟩ 80 data 6).getD 3 0 =
        (40 + data.length) % 256 := by
    intro data
    constructor
    · simp [write_response_packet, Ipv4.octets]
    · simp [write_response_packet, Ipv4.octets]
  obtain ⟨h2, h3⟩ := hfield (List.replicate 65496 0)
  rw [h2, h3, List.length_replicate] at habs
  norm_num at habs

/-- Claim C6 (code bug): for the querier 192.168.55.2:5555 with
`dns_server = 1.1.1.1`, the UDP packet written back into the TUN device
carries IP source 192.168.55.2 with source port 5555 and IP destination
1.1.1.1 with destination port 53 — the exact reverse of the claim (and of
the code's own comment, which says the write masquerades as a response
coming from the DNS server).  The response payload, including the
transaction ID 0xAB 0xCD, is preserved byte for byte. -/
theorem c6_dns_writeback_misdirected :
    decodePacket (dns_hijack_response_write ⟨1, 1, 1, 1⟩ ⟨192, 168, 55, 2⟩ 5555
        [171, 205, 1, 2]) =
      some ⟨17, ⟨192, 168, 55, 2⟩, 5555, ⟨1, 1, 1, 1⟩, 53, [171, 205, 1, 2]⟩ ∧
    (⟨192, 168, 55, 2⟩ : Ipv4) ≠ ⟨1, 1, 1, 1⟩ := by
  constructor
  · exact decodePacket_write_response_udp ⟨1, 1, 1, 1⟩ ⟨192, 168, 55, 2⟩ 53 5555
      [171, 205, 1, 2] (by omega) (by omega)
  · intro h
    have h0 := congrArg Ipv4.o0 h
    simp at h0

/-- Counterexample to claim C1: a handshake reply of `[5, 0xFF]`
(authentication required) makes `forward_to_proxy` return the error with
no direct attempt; a CONNECT reply code 1 does the same; and in the live
path `handle_tcp_proxy_connection` even a failure to open the connection
to the proxy endpoint returns the error instead of falling back to a
direct connection. -/
theorem c1_no_fallback_counterexample :
    forward_to_proxy_tcp ⟨true, true, some (5, 255), true, some (5, 0), true⟩
      ⟨true, true⟩ true = .errored ∧
    forward_to_proxy_tcp ⟨true, true, some (5, 0), true, some (5, 1), true⟩
      ⟨true, true⟩ true = .errored ∧
    handle_tcp_proxy_connection_outcome none ⟨false, true, some (5, 0), true, some (5, 0), true⟩
      true = .errored ∧
    (FwdOutcome.errored ≠ .fellBackOk ∧ FwdOutcome.errored ≠ .fellBackErr) := by
  refine ⟨rfl, rfl, rfl, by decide⟩

/-- Claim C1 (amended): only a failure to open the TCP connection to the
proxy endpoint — and only in `forward_to_proxy` — triggers the direct
fallback: `forward_to_proxy` attempts a direct connection exactly when the
proxy connection cannot be opened; a handshake reply other than `[5, 0]`
or a non-zero CONNECT reply code makes it return the error with no direct
attempt; and `handle_tcp_proxy_connection` (the path used by the response
write-back engine) never attempts a direct connection at all. -/
theorem c1_fallback_characterization (net : Socks5Net) (dnet : DirectNet)
    (hasData : Bool) (existing : Option Bool) :
    ((forward_to_proxy_tcp net dnet hasData = .fellBackOk ∨
      forward_to_proxy_tcp net dnet hasData = .fellBackErr) ↔ net.connectOk = false) ∧
    (∀ v m, net.connectOk = true → net.hsReply = some (v, m) → ¬(v = 5 ∧ m = 0) →
      forward_to_proxy_tcp net dnet hasData = .errored) ∧
    (∀ v2 rep, net.connectOk = true → net.connReply = some (v2, rep) → rep ≠ 0 →
      forward_to_proxy_tcp net dnet hasData = .errored) ∧
    (handle_tcp_proxy_connection_outcome existing net hasData ≠ .fellBackOk ∧
     handle_tcp_proxy_connection_outcome existing net hasData ≠ .fellBackErr) := by
  obtain ⟨cok, hwok, hr, rok, cr, dok⟩ := net
  refine ⟨?_, ?_, ?_, ?_⟩
  · cases cok
    · simp only [forward_to_proxy_tcp]
      cases hfd : forward_direct_tcp dnet hasData <;> simp
    · simp only [forward_to_proxy_tcp]
      constructor
      · intro h
        exfalso
        rcases h with h | h <;>
        · cases hwok <;> simp_all <;>
          rcases hr with _ | ⟨v, m⟩ <;> simp_all <;>
          by_cases hvm : v = 5 ∧ m = 0 <;> simp_all <;>
          cases rok <;> simp_all <;>
          rcases cr with _ | ⟨v2, rep⟩ <;> simp_all <;>
          by_cases hrep : rep = 0 <;> simp_all <;>
          cases hasData <;> simp_all <;>
          cases dok <;> simp_all
      · intro h
        exact absurd h (by simp)
  · intro v m hc hhr hvm
    cases hhr
    cases hwok <;> simp_all [forward_to_proxy_tcp]
  · intro v2 rep hc hcr hrep
    cases hcr
    cases hwok <;> simp_all [forward_to_proxy_tcp] <;>
    rcases hr with _ | ⟨v, m⟩ <;> simp_all <;>
    by_cases hvm : v = 5 ∧ m = 0 <;> simp_all <;>
    cases rok <;> simp_all
  · rcases existing with _ | b
    · simp only [handle_tcp_proxy_connection_outcome, socks5_new_proxy_connection]
      cases cok <;> cases hwok <;> simp_all <;>
      rcases hr with _ | ⟨v, m⟩ <;> simp_all <;>
      by_cases hv : v = 5 <;> simp_all <;>
      by_cases hm : m = 0 <;> simp_all <;>
      cases rok <;> simp_all <;>
      rcases cr with _ | ⟨v2, rep⟩ <;> simp_all <;>
      by_cases hv2 : v2 = 5 <;> simp_all <;>
      by_cases hrep : rep = 0 <;> simp_all <;>
      cases hasData <;> simp_all <;>
      cases dok <;> simp_all
    · cases b
      · simp only [handle_tcp_proxy_connection_outcome, socks5_new_proxy_connection]
        cases cok <;> cases hwok <;> simp_all <;>
        rcases hr with _ | ⟨v, m⟩ <;> simp_all <;>
        by_cases hv : v = 5 <;> simp_all <;>
        by_cases hm : m = 0 <;> simp_all <;>
        cases rok <;> simp_all <;>
        rcases cr with _ | ⟨v2, rep⟩ <;> simp_all <;>
        by_cases hv2 : v2 = 5 <;> simp_all <;>
        by_cases hrep : rep = 0 <;> simp_all <;>
        cases hasData <;> simp_all <;>
        cases dok <;> simp_all
      · simp [handle_tcp_proxy_connection_outcome]

/-- Witness for the amended C1 at concrete oracles: an unreachable proxy
endpoint makes `forward_to_proxy` fall back (here successfully), and a
rejected CONNECT makes it error out. -/
theorem c1_fallback_witness :
    (forward_to_proxy_tcp ⟨false, true, some (5, 0), true, some (5, 0), true⟩
       ⟨true, true⟩ true = .fellBackOk ∨
     forward_to_proxy_tcp ⟨false, true, some (5, 0), true, some (5, 0), true⟩
       ⟨true, true⟩ true = .fellBackErr) ∧
    forward_to_proxy_tcp ⟨true, true, some (5, 0), true, some (5, 3), true⟩
      ⟨true, true⟩ true = .errored :=
  ⟨(c1_fallback_characterization ⟨false, true, some (5, 0), true, some (5, 0), true⟩
      ⟨true, true⟩ true none).1.mpr rfl,
   (c1_fallback_characterization ⟨true, true, some (5, 0), true, some (5, 3), true⟩
      ⟨true, true⟩ true none).2.2.1 5 3 rfl rfl (by decide)⟩

/-- Counterexample to claim C2: with every command succeeding except the
first split-route add, `set_system_route(true)` returns an error while the
three proxy-server host routes and the default-route redirect it already
added are still in the table — nothing is rolled back. -/
theorem c2_partial_routes_counterexample :
    (set_system_route_enable true "192.168.55.1" "192.168.1.1"
      (fun _ op => if op.mask == "128.0.0.0" then ExecResult.failOther else ExecResult.ok)).1 =
        .error () ∧
    (set_system_route_enable true "192.168.55.1" "192.168.1.1"
      (fun _ op => if op.mask == "128.0.0.0" then ExecResult.failOther else ExecResult.ok)).2.added =
      [⟨true, "127.0.0.1", "255.255.255.255", "192.168.1.1"⟩,
       ⟨true, "8.8.8.8", "255.255.255.255", "192.168.1.1"⟩,
       ⟨true, "8.8.4.4", "255.255.255.255", "192.168.1.1"⟩,
       ⟨true, "0.0.0.0", "0.0.0.0", "192.168.55.1"⟩] ∧
    ([⟨true, "127.0.0.1", "255.255.255.255", "192.168.1.1"⟩,
      ⟨true, "8.8.8.8", "255.255.255.255", "192.168.1.1"⟩,
      ⟨true, "8.8.4.4", "255.255.255.255", "192.168.1.1"⟩,
      ⟨true, "0.0.0.0", "0.0.0.0", "192.168.55.1"⟩] : List RouteOp) ≠ [] := by
  refine ⟨rfl, rfl, by decide⟩

/-- Claim C2 (amended): when the default-route add succeeds and a
split-route add then fails, `set_system_route(true)` returns the error
immediately and performs no rollback — the default-route redirect it
already added (and any proxy-server host routes that succeeded) remain in
the route table. -/
theorem c2_no_rollback (strictRoute : Bool) (tunGw defaultGw : String)
    (exec : Nat → RouteOp → ExecResult)
    (h3 : exec 3 ⟨true, "0.0.0.0", "0.0.0.0", tunGw⟩ = ExecResult.ok)
    (h4 : exec 4 ⟨true, "0.0.0.0", "128.0.0.0", tunGw⟩ = ExecResult.failOther) :
    (set_system_route_enable strictRoute tunGw defaultGw exec).1 = .error () ∧
    (⟨true, "0.0.0.0", "0.0.0.0", tunGw⟩ : RouteOp) ∈
      (set_system_route_enable strictRoute tunGw defaultGw exec).2.added := by
  simp only [set_system_route_enable, runRouteCmd]
  simp only [Nat.zero_add, Nat.reduceAdd]
  rw [h3]
  simp only [set_system_route_tail, runRouteCmd]
  simp only [Nat.reduceAdd]
  rw [h4]
  simp [List.mem_append]

/-- Witness for the amended C2: a concrete oracle that fails exactly the
fifth command (the first split route). -/
theorem c2_no_rollback_witness :
    (set_system_route_enable false "10.0.0.1" "192.168.1.1"
      (fun k _ => if k == 4 then ExecResult.failOther else ExecResult.ok)).1 = .error () ∧
    (⟨true, "0.0.0.0", "0.0.0.0", "10.0.0.1"⟩ : RouteOp) ∈
      (set_system_route_enable false "10.0.0.1" "192.168.1.1"
        (fun k _ => if k == 4 then ExecResult.failOther else ExecResult.ok)).2.added :=
  c2_no_rollback false "10.0.0.1" "192.168.1.1"
    (fun k _ => if k == 4 then ExecResult.failOther else ExecResult.ok) rfl rfl

/-- Claim C9: starting supersedes the previous instance.  From any
well-formed manager state (the open-device list is exactly the slot's
occupant, and tracked ids are below the supply), a successful `start`
leaves exactly one live TUN device — the new one — with any previously
running or tracked device closed; `ProxyManager::start` always stops
first, leaving exactly one live process — the new one.  In particular,
calling start twice in succession from fresh states leaves exactly one
live device and one live process handle. -/
theorem c9_start_supersedes (s : TunSt) (p : ProxySt)
    (hod : s.openDevs = s.device.toList)
    (hlt : ∀ d, s.device = some d → d < s.nextId) :
    ((tunStart true true true true true s).1 = .ok () ∧
     (tunStart true true true true true s).2.openDevs = [s.nextId] ∧
     (tunStart true true true true true s).2.device = some s.nextId ∧
     (tunStart true true true true true s).2.running = true) ∧
    ((proxyStart true true p).1 = .ok () ∧
     (proxyStart true true p).2.liveProcs = [p.nextPid] ∧
     (proxyStart true true p).2.process = some p.nextPid) ∧
    ((tunStart true true true true true
        (tunStart true true true true true ⟨false, none, 0, []⟩).2).2.openDevs = [1] ∧
     (proxyStart true true (proxyStart true true ⟨none, 0, []⟩).2).2.liveProcs = [1]) := by
  refine ⟨?_, ?_, by decide⟩
  · cases hr : s.running with
    | true =>
      cases hd : s.device with
      | some d =>
        have hones : s.openDevs = [d] := by rw [hod, hd]; rfl
        simp [tunStart, tunStop, tunCloseSlot, hr, hd, hones]
      | none =>
        have hnil : s.openDevs = [] := by rw [hod, hd]; rfl
        simp [tunStart, tunStop, tunCloseSlot, hr, hd, hnil]
    | false =>
      cases hd : s.device with
      | some d =>
        have hones : s.openDevs = [d] := by rw [hod, hd]; rfl
        have hne : (s.nextId == d) = false := by
          have := hlt d hd
          simp
          omega
        simp [tunStart, tunStop, tunCloseSlot, hr, hd, hones, List.erase_cons, hne]
      | none =>
        have hnil : s.openDevs = [] := by rw [hod, hd]; rfl
        simp [tunStart, tunStop, tunCloseSlot, hr, hd, hnil]
  · cases hp : p.process with
    | some pid => simp [proxyStart, proxyStop, hp]
    | none => simp [proxyStart, proxyStop, hp]

/-- Witness for C9 at the fresh initial states of both managers. -/
theorem c9_start_supersedes_witness :
    (TunSt.mk false none 0 []).openDevs = (Option.toList (TunSt.mk false none 0 []).device) ∧
    (tunStart true true true true true ⟨false, none, 0, []⟩).2.openDevs = [0] ∧
    (proxyStart true true ⟨none, 0, []⟩).2.liveProcs = [0] :=
  ⟨rfl,
   ((c9_start_supersedes ⟨false, none, 0, []⟩ ⟨none, 0, []⟩ rfl
      (fun d h => Option.noConfusion h)).1).2.1,
   ((c9_start_supersedes ⟨false, none, 0, []⟩ ⟨none, 0, []⟩ rfl
      (fun d h => Option.noConfusion h)).2).1.2.1⟩
